import Mathlib

/-!
Verification of the blueprint / application-lifecycle client in
`modal/stub.py` (class `_Stub`), as a shallow embedding.

External collaborators (`_App.init_existing`, `_App.init_new`,
`app.create_all_objects`, `app.disconnect`, the gRPC stub calls
`AppGetByDeploymentName` / `AppDeploy`, the log-streaming task, and
`logger.warning`) are modelled as events recorded in a trace; the control
flow around them is translated directly from the Python source.  Remote
responses and the outcome of each awaited step (success, raised error,
delivered `KeyboardInterrupt`) are explicit parameters, so each theorem
quantifies over every behaviour of the environment.
-/

namespace ModalClient

/-- Deployment namespaces from `api_pb2` (`DEPLOYMENT_NAMESPACE_*`). -/
inductive DeploymentNamespace
  | local_
  | account
  | global_
  deriving DecidableEq, Repr

/-- Observable events of one client session: remote calls, the log-task
lifecycle, user-facing prints and the disconnect call. -/
inductive Event
  /-- gRPC AppGetByDeploymentName request with its name and namespace. -/
  | appGetByDeploymentName (name : String) (ns : DeploymentNamespace)
  /-- Client constructed from the environment (no explicit client given). -/
  | clientFromEnv
  /-- _App.init_existing: resume the remote app with this id. -/
  | initExisting (appId : String)
  /-- _App.init_new: create a fresh remote app with this description. -/
  | initNew (description : String)
  /-- The log-streaming task is started for this app id and watermark. -/
  | logsLoopStart (appId : String) (lastLogEntryId : String)
  /-- Explicit logs_loop.cancel() issued inside _run. -/
  | logsLoopCancel
  /-- app.create_all_objects is invoked. -/
  | createObjects
  /-- Control is yielded to the caller's context (the with-block body). -/
  | yieldToContext
  /-- The user-facing KeyboardInterrupt notice is printed. -/
  | printInterruptNotice
  /-- app.disconnect() is awaited. -/
  | disconnect
  /-- The TaskContext is exited (cancels remaining tasks with grace). -/
  | taskContextExit
  /-- gRPC AppDeploy request binding app id, name and namespace. -/
  | appDeploy (appId : String) (name : String) (ns : DeploymentNamespace)
  /-- Final step message: "App deployed!". -/
  | printDeployed
  /-- Final step message: "App completed.". -/
  | printCompleted
  deriving DecidableEq, Repr

/-- Exceptions that cross the boundaries modelled here. -/
inductive Exc
  /-- Python KeyboardInterrupt. -/
  | keyboardInterrupt
  /-- modal.exception.InvalidError with a discriminating label. -/
  | invalidError (label : String)
  /-- Any other exception, identified by a code. -/
  | other (code : Nat)
  deriving DecidableEq, Repr

/-- Outcome of one awaited step of the environment: it returns, raises
KeyboardInterrupt, or raises some other exception. -/
inductive StepOutcome
  | ok
  | interrupt
  | error (code : Nat)
  deriving DecidableEq, Repr

/-- Convert a step outcome to the exception it raises, if any. -/
def StepOutcome.toExc : StepOutcome → Option Exc
  | .ok => none
  | .interrupt => some .keyboardInterrupt
  | .error c => some (.other c)

/-- Parameters of one call to _Stub._run, as in the Python signature:
the existing app id, the log watermark, the description override and the
deployment flag. -/
structure RunParams where
  existing_app_id : Option String
  last_log_entry_id : Option String
  description : Option String
  deployment : Bool
  deriving DecidableEq, Repr

/-- Behaviour of the environment during one _run call: whether the app
initialization call raises, the id a fresh app would receive, the outcome
of create_all_objects and the outcome of the caller's with-block body. -/
structure RunEnv where
  initOutcome : StepOutcome
  newAppId : String
  createOutcome : StepOutcome
  bodyOutcome : StepOutcome
  deriving DecidableEq, Repr

/-- Result of one _run call: the event trace, the exception that escaped
(none for normal completion), and the app id of the session (meaningful
when initialization succeeded). -/
structure RunResult where
  events : List Event
  exc : Option Exc
  app_id : String
  deriving DecidableEq, Repr

/-- Events and pending exception of the try-block of _run: create all
objects, cancel the logs loop when deploying, then yield to the caller.
The body events are supplied by the caller of _run (deploy issues its
AppDeploy there; run and run_forever contribute no events). -/
def tryBlock (deployment : Bool) (env : RunEnv) (bodyEvents : List Event) :
    List Event × Option Exc :=
  match env.createOutcome with
  | .ok =>
    let cancelEvents := if deployment then [Event.logsLoopCancel] else []
    ([Event.createObjects] ++ cancelEvents ++ [Event.yieldToContext] ++ bodyEvents,
     env.bodyOutcome.toExc)
  | outcome => ([Event.createObjects], outcome.toExc)

/-- Shallow embedding of _Stub._run (stub.py lines 143-197).
stubDescription is self.description, used when no description override is
given and a new app is created.  bodyEvents are the events the caller's
with-block body emits when it runs to completion. -/
def runSession (stubDescription : String) (p : RunParams) (env : RunEnv)
    (bodyEvents : List Event) : RunResult :=
  let (initEvent, appId) :=
    match p.existing_app_id with
    | some id => (Event.initExisting id, id)
    | none => (Event.initNew (p.description.getD stubDescription), env.newAppId)
  match env.initOutcome with
  | .ok =>
    let startEvents := [initEvent, Event.logsLoopStart appId (p.last_log_entry_id.getD "")]
    let (tryEvents, tryExc) := tryBlock p.deployment env bodyEvents
    -- except KeyboardInterrupt: print the notice and swallow the exception
    let (handlerEvents, pending) :=
      match tryExc with
      | some .keyboardInterrupt => ([Event.printInterruptNotice], none)
      | e => ([], e)
    -- finally: await app.disconnect(); then the TaskContext is exited
    let finallyEvents := [Event.disconnect, Event.taskContextExit]
    let tailEvents :=
      match pending with
      | none => [if p.deployment then Event.printDeployed else Event.printCompleted]
      | some _ => []
    { events := startEvents ++ tryEvents ++ handlerEvents ++ finallyEvents ++ tailEvents,
      exc := pending,
      app_id := appId }
  | outcome =>
    -- initialization raised before the TaskContext / try block was entered
    { events := [initEvent], exc := outcome.toExc, app_id := appId }

/-- Response of the AppGetByDeploymentName remote call: proto fields
default to the empty string when the record does not exist. -/
structure AppGetResponse where
  app_id : String
  last_log_entry_id : String
  deriving DecidableEq, Repr

/-- Modelled from the spec: the helper is_valid_app_name lives in
modal_utils.app_utils, which is not part of the sources here.  Per the
spec (and the InvalidError message in deploy), app names may only contain
alphanumeric characters, dashes, periods, and underscores, and must be
less than 64 characters in length (and non-empty, since the pattern
requires at least one character). -/
def is_valid_app_name (name : String) : Bool :=
  name.data.length < 64 && name.data.length > 0 &&
    name.data.all (fun c => c.isAlphanum || c = '-' || c = '.' || c = '_')

/-- Result of a public entry point: the full event trace together with
either a raised exception or the returned value. -/
structure CallResult (α : Type) where
  events : List Event
  outcome : Except Exc α
  deriving Repr

/-- Shallow embedding of _Stub.deploy (stub.py lines 249-317).
stubName is self.name; isLocal the value of is_local(); clientProvided
whether an explicit client argument was passed; resp the remote
AppGetByDeploymentName response; deployCallOutcome the outcome of the
AppDeploy call issued in the with-block body. -/
def deploy (stubName : Option String) (nameArg : Option String)
    (ns : DeploymentNamespace) (isLocal : Bool) (clientProvided : Bool)
    (resp : AppGetResponse) (initOutcome : StepOutcome) (newAppId : String)
    (createOutcome : StepOutcome) (deployCallOutcome : StepOutcome) :
    CallResult String :=
  if !isLocal then
    { events := [], outcome := .error (.invalidError "deploy inside container") }
  else
    match (nameArg.orElse fun _ => stubName) with
    | none => { events := [], outcome := .error (.invalidError "no deployment name") }
    | some name =>
      if !is_valid_app_name name then
        { events := [], outcome := .error (.invalidError "invalid app name") }
      else
        let clientEvents := if clientProvided then [] else [Event.clientFromEnv]
        let lookupEvents := [Event.appGetByDeploymentName name ns]
        -- app_resp.app_id or None: the empty string means no existing record
        let existing_app_id := if resp.app_id = "" then none else some resp.app_id
        let p : RunParams :=
          { existing_app_id := existing_app_id,
            last_log_entry_id := some resp.last_log_entry_id,
            description := some name,
            deployment := true }
        let env : RunEnv :=
          { initOutcome := initOutcome, newAppId := newAppId,
            createOutcome := createOutcome, bodyOutcome := deployCallOutcome }
        -- the with-block body issues AppDeploy for app._app_id and returns it
        let sessionAppId := (existing_app_id.getD newAppId)
        let bodyEvents := [Event.appDeploy sessionAppId name ns]
        let r := runSession name p env bodyEvents
        match r.exc with
        | none => { events := clientEvents ++ lookupEvents ++ r.events, outcome := .ok r.app_id }
        | some e => { events := clientEvents ++ lookupEvents ++ r.events, outcome := .error e }

/-- Shallow embedding of _Stub.run (stub.py lines 199-220).
stubDescription is self.description; the body of the caller's with-block
is abstracted by its outcome inside env.bodyOutcome (it emits no modelled
events of its own). -/
def run (stubDescription : String) (isLocal : Bool) (clientProvided : Bool)
    (env : RunEnv) : CallResult Unit :=
  if !isLocal then
    { events := [], outcome := .error (.invalidError "run inside container") }
  else
    let clientEvents := if clientProvided then [] else [Event.clientFromEnv]
    let p : RunParams :=
      { existing_app_id := none, last_log_entry_id := none,
        description := none, deployment := false }
    let r := runSession stubDescription p env []
    match r.exc with
    | none => { events := clientEvents ++ r.events, outcome := .ok () }
    | some e => { events := clientEvents ++ r.events, outcome := .error e }

/-- Shallow embedding of _Stub.run_forever (stub.py lines 222-247).
The with-block body sleeps (for run_forever_timeout seconds, or forever)
and its outcome - completing after the timeout, or being interrupted -
is env.bodyOutcome. -/
def run_forever (stubDescription : String) (isLocal : Bool)
    (clientProvided : Bool) (env : RunEnv) : CallResult Unit :=
  if !isLocal then
    { events := [], outcome := .error (.invalidError "run inside container") }
  else
    let clientEvents := if clientProvided then [] else [Event.clientFromEnv]
    let p : RunParams :=
      { existing_app_id := none, last_log_entry_id := none,
        description := none, deployment := false }
    let r := runSession stubDescription p env []
    match r.exc with
    | none => { events := clientEvents ++ r.events, outcome := .ok () }
    | some e => { events := clientEvents ++ r.events, outcome := .error e }

/-! Blueprint registry and _add_function (stub.py lines 346-358). -/

/-- Identity of the Python function wrapped by a _Function, as read by
the collision warning (function._info.module_name / .function_name). -/
structure FunctionInfoData where
  module_name : String
  function_name : String
  deriving DecidableEq, Repr

/-- A _Function as far as the blueprint registry observes it: its tag,
its info, and an opaque code standing for the rest of its configuration
(image, secrets, schedule, ...). -/
structure FunctionData where
  tag : String
  info : FunctionInfoData
  config : Nat
  deriving DecidableEq, Repr

/-- A blueprint entry: either a _Function or an object of another kind
(Image, Secret, Mount, Ref, ...), with an opaque payload. -/
inductive Object
  | function (f : FunctionData)
  | other (kind : String) (payload : Nat)
  deriving DecidableEq, Repr

/-- The two logger.warning diagnostics _add_function can emit: the
detailed same-kind collision warning, and the generic message used when
the overridden entry is not a _Function. -/
inductive Warning
  | tagCollision (tag oldModule oldName newModule newName : String)
  | tagOverridden (tag : String)
  deriving DecidableEq, Repr

/-- Python dict update: overwrite in place when the key exists (keeping
its position), append otherwise. -/
def dictSet {α : Type} (d : List (String × α)) (k : String) (v : α) :
    List (String × α) :=
  if d.any (fun p => p.1 = k) then
    d.map (fun p => if p.1 = k then (k, v) else p)
  else
    d ++ [(k, v)]

/-- Shallow embedding of _Stub._add_function (stub.py lines 346-358):
when the tag is already bound, warn (with the detailed collision message
if the old entry is a _Function, the generic override message otherwise),
then bind the tag to the new function unconditionally. -/
def add_function (blueprint : List (String × Object)) (f : FunctionData) :
    List (String × Object) × List Warning :=
  let warnings :=
    match blueprint.lookup f.tag with
    | some (Object.function oldF) =>
      [Warning.tagCollision f.tag oldF.info.module_name oldF.info.function_name
        f.info.module_name f.info.function_name]
    | some _ => [Warning.tagOverridden f.tag]
    | none => []
  (dictSet blueprint f.tag (Object.function f), warnings)

/-! Mount resolver and _get_function_mounts (stub.py lines 325-344). -/

/-- A mount as it appears in the list _get_function_mounts returns: the
client mount (freshly created, or a global ref), a per-closure function
mount identified by the id of the underlying _Mount object, or one of the
stub's default mounts. -/
inductive MountVal
  | clientCreated
  | clientGlobalRef
  | functionMount (id : Nat)
  | stubMount (id : Nat)
  deriving DecidableEq, Repr

/-- The mutable mount state of a stub: self._client_mount and
self._function_mounts (dedup key to mount-object id). -/
structure MountState where
  client_mount : Option MountVal
  function_mounts : List (String × Nat)
  deriving DecidableEq, Repr

/-- The loop over FunctionInfo(raw_f).get_mounts().items(): for each
(key, mount) pair, store the mount under its key unless the key is
already memoized, then append the memoized mount for that key.  Returns
the updated memo table and the appended mount ids in order. -/
def processInfoMounts (fm : List (String × Nat)) :
    List (String × Nat) → List (String × Nat) × List Nat
  | [] => (fm, [])
  | (key, m) :: rest =>
    let fm1 := if fm.any (fun p => p.1 = key) then fm else fm ++ [(key, m)]
    let chosen := (fm1.lookup key).getD 0
    let (fmFinal, restIds) := processInfoMounts fm1 rest
    (fmFinal, chosen :: restIds)

/-- Lines 330-334 of stub.py: the value self._client_mount takes after
the call - kept when already set, freshly created when sync_entrypoint is
configured, a global ref otherwise. -/
def clientMountChoice (cm0 : Option MountVal) (syncEntrypoint : Bool) : MountVal :=
  match cm0 with
  | some c => c
  | none => if syncEntrypoint then MountVal.clientCreated else MountVal.clientGlobalRef

/-- Shallow embedding of _Stub._get_function_mounts (stub.py lines
325-344).  stubMounts is self._mounts; syncEntrypoint the value of
config sync_entrypoint; infoMounts the (dedup key, mount) pairs produced
by FunctionInfo(raw_f).get_mounts() for the declared function, which is
an external collaborator and hence an input here. -/
def get_function_mounts (stubMounts : List MountVal) (syncEntrypoint : Bool)
    (st : MountState) (infoMounts : List (String × Nat)) :
    List MountVal × MountState :=
  let cm := clientMountChoice st.client_mount syncEntrypoint
  let (fm1, ids) := processInfoMounts st.function_mounts infoMounts
  (stubMounts ++ [cm] ++ ids.map MountVal.functionMount,
   { client_mount := some cm, function_mounts := fm1 })

/-! Theorems about the claims. -/

/-- Claim C1: for every session started via _run (from run, run_forever,
or deploy), app.disconnect() is executed exactly once on every exit path
- normal completion, an error raised during object creation, or an
interrupt - regardless of whether the running phase was reached.  (The
caller's with-block body does not itself call disconnect; initialization
must have succeeded for the session to have started.) -/
theorem run_disconnect_exactly_once (desc : String) (p : RunParams)
    (env : RunEnv) (bodyEvents : List Event)
    (hinit : env.initOutcome = .ok)
    (hbody : Event.disconnect ∉ bodyEvents) :
    (runSession desc p env bodyEvents).events.count Event.disconnect = 1 := by
  have hb : bodyEvents.count Event.disconnect = 0 := List.count_eq_zero.mpr hbody
  rcases p with ⟨ea, ll, d, dep⟩
  rcases env with ⟨io, na, co, bo⟩
  simp only at hinit
  subst hinit
  rcases ea with _ | id <;> rcases co with _ | _ | c <;>
    rcases bo with _ | _ | c2 <;> rcases dep with _ | _ <;>
    simp [runSession, tryBlock, StepOutcome.toExc, List.count_append,
      List.count_cons, hb]

/-- Witness for C1 at a concrete session. -/
theorem run_disconnect_exactly_once_witness :
    (runSession "app" ⟨none, none, none, false⟩ ⟨.ok, "ap-1", .ok, .ok⟩
      []).events.count Event.disconnect = 1 :=
  run_disconnect_exactly_once "app" ⟨none, none, none, false⟩
    ⟨.ok, "ap-1", .ok, .ok⟩ [] rfl (by decide)

/-- Claim C2: a KeyboardInterrupt delivered while objects are being
created or while the app is running (the with-block body) is caught: the
session completes without an escaping exception, the user-facing notice
is printed, and disconnect is still executed. -/
theorem run_interrupt_caught (desc : String) (p : RunParams)
    (env : RunEnv) (bodyEvents : List Event)
    (hinit : env.initOutcome = .ok)
    (hint : env.createOutcome = .interrupt ∨
      (env.createOutcome = .ok ∧ env.bodyOutcome = .interrupt)) :
    (runSession desc p env bodyEvents).exc = none ∧
      Event.printInterruptNotice ∈ (runSession desc p env bodyEvents).events ∧
      Event.disconnect ∈ (runSession desc p env bodyEvents).events := by
  rcases p with ⟨ea, ll, d, dep⟩
  rcases env with ⟨io, na, co, bo⟩
  simp only at hinit
  subst hinit
  rcases hint with h | ⟨h1, h2⟩
  · simp only at h
    subst h
    rcases ea with _ | id <;> rcases dep with _ | _ <;>
      simp [runSession, tryBlock, StepOutcome.toExc]
  · simp only at h1 h2
    subst h1; subst h2
    rcases ea with _ | id <;> rcases dep with _ | _ <;>
      simp [runSession, tryBlock, StepOutcome.toExc]

/-- Witness for C2: interrupt while the app is running, at a concrete
session. -/
theorem run_interrupt_caught_witness :
    (runSession "app" ⟨none, none, none, false⟩ ⟨.ok, "ap-1", .ok, .interrupt⟩
        []).exc = none ∧
      Event.printInterruptNotice ∈
        (runSession "app" ⟨none, none, none, false⟩ ⟨.ok, "ap-1", .ok, .interrupt⟩
          []).events ∧
      Event.disconnect ∈
        (runSession "app" ⟨none, none, none, false⟩ ⟨.ok, "ap-1", .ok, .interrupt⟩
          []).events :=
  run_interrupt_caught "app" ⟨none, none, none, false⟩
    ⟨.ok, "ap-1", .ok, .interrupt⟩ [] rfl (Or.inr ⟨rfl, rfl⟩)

/-- Claim C3: deploy with a valid effective name first queries the
control plane for an existing deployment record; when the response holds
a non-empty app_id, the session resumes with that identifier and the log
stream is started from the record's last_log_entry_id watermark. -/
theorem deploy_resumes_existing (stubName nameArg : Option String)
    (ns : DeploymentNamespace) (clientProvided : Bool) (resp : AppGetResponse)
    (newAppId : String) (co dco : StepOutcome) (name : String)
    (hname : (nameArg.orElse fun _ => stubName) = some name)
    (hvalid : is_valid_app_name name = true)
    (happ : resp.app_id ≠ "") :
    ∃ rest,
      (deploy stubName nameArg ns true clientProvided resp .ok newAppId
          co dco).events =
        (if clientProvided then [] else [Event.clientFromEnv]) ++
          Event.appGetByDeploymentName name ns ::
          Event.initExisting resp.app_id ::
          Event.logsLoopStart resp.app_id resp.last_log_entry_id :: rest := by
  rcases co with _ | _ | c <;> rcases dco with _ | _ | c2 <;>
    rcases clientProvided with _ | _ <;>
      simp [deploy, hname, hvalid, happ, runSession, tryBlock,
        StepOutcome.toExc]

/-- Witness for C3 at a concrete deploy call. -/
theorem deploy_resumes_existing_witness :
    ∃ rest,
      (deploy (some "myapp") none .account true true ⟨"ap-old", "log-42"⟩ .ok
          "ap-new" .ok .ok).events =
        (if true then [] else [Event.clientFromEnv]) ++
          Event.appGetByDeploymentName "myapp" .account ::
          Event.initExisting "ap-old" ::
          Event.logsLoopStart "ap-old" "log-42" :: rest :=
  deploy_resumes_existing (some "myapp") none .account true ⟨"ap-old", "log-42"⟩
    "ap-new" .ok .ok "myapp" rfl (by decide) (by decide)

/-- Claim C4: a deploy call whose effective name (the explicit argument,
else the stub name) is missing or fails the naming pattern raises an
InvalidError before constructing a client or issuing any remote call:
the event trace is empty. -/
theorem deploy_invalid_name_no_remote_call (stubName nameArg : Option String)
    (ns : DeploymentNamespace) (clientProvided : Bool) (resp : AppGetResponse)
    (io : StepOutcome) (newAppId : String) (co dco : StepOutcome)
    (hname : (nameArg.orElse fun _ => stubName) = none ∨
      ∃ name, (nameArg.orElse fun _ => stubName) = some name ∧
        is_valid_app_name name = false) :
    (deploy stubName nameArg ns true clientProvided resp io newAppId
        co dco).events = [] ∧
      ∃ msg,
        (deploy stubName nameArg ns true clientProvided resp io newAppId
            co dco).outcome = .error (.invalidError msg) := by
  rcases hname with h | ⟨name, h, hbad⟩
  · simp [deploy, h]
  · simp [deploy, h, hbad]

/-- Witness for C4: deploying with an explicit name that violates the
naming pattern. -/
theorem deploy_invalid_name_no_remote_call_witness :
    (deploy none (some "bad name!") .account true true ⟨"", ""⟩ .ok "x"
        .ok .ok).events = [] ∧
      ∃ msg,
        (deploy none (some "bad name!") .account true true ⟨"", ""⟩ .ok "x"
            .ok .ok).outcome = .error (.invalidError msg) :=
  deploy_invalid_name_no_remote_call none (some "bad name!") .account true
    ⟨"", ""⟩ .ok "x" .ok .ok
    (Or.inr ⟨"bad name!", rfl, by decide⟩)

/-- Claim C5: a successful deploy issues exactly one AppDeploy call,
binding exactly the session's app id, the effective name and the
namespace; it comes only after create_all_objects, and deploy returns the
finalized app id.  The full event trace is pinned down. -/
theorem deploy_finalizes_after_creation (stubName nameArg : Option String)
    (ns : DeploymentNamespace) (clientProvided : Bool) (resp : AppGetResponse)
    (newAppId : String) (name : String)
    (hname : (nameArg.orElse fun _ => stubName) = some name)
    (hvalid : is_valid_app_name name = true) :
    (deploy stubName nameArg ns true clientProvided resp .ok newAppId
        .ok .ok).events =
      (if clientProvided then [] else [Event.clientFromEnv]) ++
        [Event.appGetByDeploymentName name ns,
          (if resp.app_id = "" then Event.initNew name
            else Event.initExisting resp.app_id),
          Event.logsLoopStart (if resp.app_id = "" then newAppId else resp.app_id)
            resp.last_log_entry_id,
          Event.createObjects, Event.logsLoopCancel, Event.yieldToContext,
          Event.appDeploy (if resp.app_id = "" then newAppId else resp.app_id)
            name ns,
          Event.disconnect, Event.taskContextExit, Event.printDeployed] ∧
      ((deploy stubName nameArg ns true clientProvided resp .ok newAppId
          .ok .ok).events.countP
        (fun e => match e with | .appDeploy _ _ _ => true | _ => false)) = 1 ∧
      (deploy stubName nameArg ns true clientProvided resp .ok newAppId
          .ok .ok).outcome =
        .ok (if resp.app_id = "" then newAppId else resp.app_id) := by
  by_cases happ : resp.app_id = "" <;>
    rcases clientProvided with _ | _ <;>
      simp [deploy, hname, hvalid, happ, runSession, tryBlock,
        StepOutcome.toExc, List.countP_append, List.countP_cons]

/-- Witness for C5: a concrete successful deploy resuming an existing
record. -/
theorem deploy_finalizes_after_creation_witness :
    (deploy (some "myapp") none .account true true ⟨"ap-old", "log-42"⟩ .ok
        "ap-new" .ok .ok).events =
      (if true then [] else [Event.clientFromEnv]) ++
        [Event.appGetByDeploymentName "myapp" .account,
          (if ("ap-old" : String) = "" then Event.initNew "myapp"
            else Event.initExisting "ap-old"),
          Event.logsLoopStart
            (if ("ap-old" : String) = "" then "ap-new" else "ap-old") "log-42",
          Event.createObjects, Event.logsLoopCancel, Event.yieldToContext,
          Event.appDeploy
            (if ("ap-old" : String) = "" then "ap-new" else "ap-old")
            "myapp" .account,
          Event.disconnect, Event.taskContextExit, Event.printDeployed] ∧
      ((deploy (some "myapp") none .account true true ⟨"ap-old", "log-42"⟩ .ok
          "ap-new" .ok .ok).events.countP
        (fun e => match e with | .appDeploy _ _ _ => true | _ => false)) = 1 ∧
      (deploy (some "myapp") none .account true true ⟨"ap-old", "log-42"⟩ .ok
          "ap-new" .ok .ok).outcome =
        .ok (if ("ap-old" : String) = "" then "ap-new" else "ap-old") :=
  deploy_finalizes_after_creation (some "myapp") none .account true
    ⟨"ap-old", "log-42"⟩ "ap-new" "myapp" rfl (by decide)

/-- Overwriting every entry keyed k by (k, v) makes lookup of k yield v,
provided some entry with key k exists. -/
theorem lookup_map_overwrite {α : Type} (k : String) (v : α) :
    ∀ d : List (String × α), d.any (fun p => p.1 = k) = true →
      (d.map fun p => if p.1 = k then (k, v) else p).lookup k = some v := by
  intro d
  induction d with
  | nil => intro h; simp at h
  | cons q rest ih =>
    intro h
    rw [List.map_cons]
    by_cases hq : q.1 = k
    · rw [if_pos hq]
      simp [List.lookup]
    · rw [if_neg hq]
      have hrest : rest.any (fun p => p.1 = k) = true := by simpa [hq] using h
      have hne : (k == q.1) = false :=
        beq_eq_false_iff_ne.mpr fun hk => hq hk.symm
      simp [List.lookup, hne, ih hrest]

/-- Appending (k, v) to a list with no entry keyed k makes lookup of k
yield v. -/
theorem lookup_append_missing {α : Type} (k : String) (v : α) :
    ∀ d : List (String × α), d.any (fun p => p.1 = k) = false →
      (d ++ [(k, v)]).lookup k = some v := by
  intro d
  induction d with
  | nil => intro _; simp [List.lookup]
  | cons q rest ih =>
    intro h
    simp only [List.any_cons, Bool.or_eq_false_iff, decide_eq_false_iff_not] at h
    have hne : (k == q.1) = false :=
      beq_eq_false_iff_ne.mpr fun hk => h.1 hk.symm
    rw [List.cons_append]
    simp [List.lookup, hne, ih h.2]

/-- Python dict write-then-read: after dictSet, looking the key up yields
the written value. -/
theorem lookup_dictSet_self {α : Type} (d : List (String × α)) (k : String)
    (v : α) : (dictSet d k v).lookup k = some v := by
  unfold dictSet
  by_cases h : d.any (fun p => p.1 = k) = true
  · simp only [h, if_true]
    exact lookup_map_overwrite k v d h
  · simp only [Bool.not_eq_true] at h
    simp only [h, Bool.false_eq_true, if_false]
    exact lookup_append_missing k v d h

/-- Claim C6: registering a function under a tag already bound to a
Function-kind object with a different configuration succeeds with
last-writer-wins (the blueprint then maps the tag to the new function)
and emits exactly one collision warning; no error is raised (the
operation is total). -/
theorem add_function_same_kind_collision (blueprint : List (String × Object))
    (f oldF : FunctionData)
    (hold : blueprint.lookup f.tag = some (Object.function oldF))
    (_hdiff : oldF.config ≠ f.config) :
    (add_function blueprint f).1.lookup f.tag = some (Object.function f) ∧
      (add_function blueprint f).2 =
        [Warning.tagCollision f.tag oldF.info.module_name
          oldF.info.function_name f.info.module_name f.info.function_name] := by
  refine ⟨?_, ?_⟩
  · simp [add_function, lookup_dictSet_self]
  · simp [add_function, hold]

/-- Witness for C6: re-registering tag f with a different configuration. -/
theorem add_function_same_kind_collision_witness :
    (add_function [("f", Object.function ⟨"f", ⟨"m1", "f1"⟩, 0⟩)]
        ⟨"f", ⟨"m2", "f2"⟩, 1⟩).1.lookup "f" =
        some (Object.function ⟨"f", ⟨"m2", "f2"⟩, 1⟩) ∧
      (add_function [("f", Object.function ⟨"f", ⟨"m1", "f1"⟩, 0⟩)]
          ⟨"f", ⟨"m2", "f2"⟩, 1⟩).2 =
        [Warning.tagCollision "f" "m1" "f1" "m2" "f2"] :=
  add_function_same_kind_collision
    [("f", Object.function ⟨"f", ⟨"m1", "f1"⟩, 0⟩)]
    ⟨"f", ⟨"m2", "f2"⟩, 1⟩ ⟨"f", ⟨"m1", "f1"⟩, 0⟩ (by decide) (by decide)

/-- Counterexample to C7 as stated: overriding a tag bound to a
non-Function object with a function is not silent - a warning is
emitted. -/
theorem add_function_cross_kind_not_silent :
    (add_function [("f", Object.other "secret" 0)]
        ⟨"f", ⟨"m", "g"⟩, 0⟩).2 ≠ [] := by
  decide

/-- Amended C7: overriding a blueprint tag bound to an object of a
different kind (not a Function) with a new function emits exactly one
warning diagnostic, using the generic override message rather than the
detailed same-kind collision message; last writer still wins. -/
theorem add_function_cross_kind_warns (blueprint : List (String × Object))
    (f : FunctionData) (obj : Object)
    (hold : blueprint.lookup f.tag = some obj)
    (hkind : ∀ g : FunctionData, obj ≠ Object.function g) :
    (add_function blueprint f).1.lookup f.tag = some (Object.function f) ∧
      (add_function blueprint f).2 = [Warning.tagOverridden f.tag] := by
  refine ⟨?_, ?_⟩
  · simp [add_function, lookup_dictSet_self]
  · cases obj with
    | function g => exact absurd rfl (hkind g)
    | other kind payload => simp [add_function, hold]

/-- Witness for the amended C7: overriding a Secret-kind entry with a
function. -/
theorem add_function_cross_kind_warns_witness :
    (add_function [("f", Object.other "secret" 0)]
        ⟨"f", ⟨"m", "g"⟩, 0⟩).1.lookup "f" =
        some (Object.function ⟨"f", ⟨"m", "g"⟩, 0⟩) ∧
      (add_function [("f", Object.other "secret" 0)]
          ⟨"f", ⟨"m", "g"⟩, 0⟩).2 = [Warning.tagOverridden "f"] :=
  add_function_cross_kind_warns [("f", Object.other "secret" 0)]
    ⟨"f", ⟨"m", "g"⟩, 0⟩ (Object.other "secret" 0) (by decide) (by simp)

/-- Claim C8: per-closure function mounts are memoized by their
structural dedup key.  Starting from a fresh memo table, after resolving
two declared functions whose closures yield one (key, mount) pair each:
with identical keys both returned mount lists carry the same single
memoized mount (the first one stored) and the memo table holds one entry;
with differing keys each function gets its own distinct mount and the
memo table holds both. -/
theorem get_function_mounts_memoized (sm1 sm2 : List MountVal)
    (sync1 sync2 : Bool) (cm0 : Option MountVal) (k1 k2 : String)
    (m1 m2 : Nat) :
    (get_function_mounts sm1 sync1 ⟨cm0, []⟩ [(k1, m1)]).1 =
        sm1 ++ [clientMountChoice cm0 sync1, MountVal.functionMount m1] ∧
      (k1 = k2 →
        (get_function_mounts sm2 sync2
            (get_function_mounts sm1 sync1 ⟨cm0, []⟩ [(k1, m1)]).2
            [(k2, m2)]).1 =
            sm2 ++ [clientMountChoice cm0 sync1, MountVal.functionMount m1] ∧
          (get_function_mounts sm2 sync2
              (get_function_mounts sm1 sync1 ⟨cm0, []⟩ [(k1, m1)]).2
              [(k2, m2)]).2.function_mounts = [(k1, m1)]) ∧
      (k1 ≠ k2 →
        (get_function_mounts sm2 sync2
            (get_function_mounts sm1 sync1 ⟨cm0, []⟩ [(k1, m1)]).2
            [(k2, m2)]).1 =
            sm2 ++ [clientMountChoice cm0 sync1, MountVal.functionMount m2] ∧
          (get_function_mounts sm2 sync2
              (get_function_mounts sm1 sync1 ⟨cm0, []⟩ [(k1, m1)]).2
              [(k2, m2)]).2.function_mounts = [(k1, m1), (k2, m2)]) := by
  refine ⟨?_, ?_, ?_⟩
  · simp [get_function_mounts, processInfoMounts, List.lookup]
  · intro h
    subst h
    constructor <;>
      simp [get_function_mounts, processInfoMounts, List.lookup,
        clientMountChoice]
  · intro h
    have hne : (k2 == k1) = false :=
      beq_eq_false_iff_ne.mpr fun hk => h hk.symm
    constructor <;>
      simp [get_function_mounts, processInfoMounts, List.lookup, h, hne,
        clientMountChoice]

/-- Witness for C8: both the identical-key and the differing-key case at
concrete inputs. -/
theorem get_function_mounts_memoized_witness :
    ((get_function_mounts [] false
        (get_function_mounts [] false ⟨none, []⟩ [("k", 11)]).2
        [("k", 22)]).1 =
      [] ++ [clientMountChoice none false, MountVal.functionMount 11] ∧
      (get_function_mounts [] false
          (get_function_mounts [] false ⟨none, []⟩ [("k", 11)]).2
          [("k", 22)]).2.function_mounts = [("k", 11)]) ∧
    ((get_function_mounts [] false
        (get_function_mounts [] false ⟨none, []⟩ [("ka", 11)]).2
        [("kb", 22)]).1 =
      [] ++ [clientMountChoice none false, MountVal.functionMount 22] ∧
      (get_function_mounts [] false
          (get_function_mounts [] false ⟨none, []⟩ [("ka", 11)]).2
          [("kb", 22)]).2.function_mounts = [("ka", 11), ("kb", 22)]) :=
  ⟨(get_function_mounts_memoized [] [] false false none "k" "k" 11 22).2.1 rfl,
   (get_function_mounts_memoized [] [] false false none "ka" "kb" 11
     22).2.2 (by decide)⟩

/-- Claim C9: in a run whose object creation completes, when the
deployment flag is set the explicit logs_loop.cancel() happens
immediately after create_all_objects and before control is yielded to
the caller's context; when the flag is not set, no explicit cancel is
ever issued (the caller's body emits none). -/
theorem run_deployment_cancels_logs (desc : String) (p : RunParams)
    (env : RunEnv) (bodyEvents : List Event)
    (hinit : env.initOutcome = .ok)
    (hcreate : env.createOutcome = .ok)
    (hbody : Event.logsLoopCancel ∉ bodyEvents) :
    (p.deployment = true →
      ∃ e1 e2 rest,
        (runSession desc p env bodyEvents).events =
          e1 :: e2 :: Event.createObjects :: Event.logsLoopCancel ::
            Event.yieldToContext :: rest) ∧
    (p.deployment = false →
      Event.logsLoopCancel ∉ (runSession desc p env bodyEvents).events) := by
  rcases p with ⟨ea, ll, d, dep⟩
  rcases env with ⟨io, na, co, bo⟩
  simp only at hinit hcreate
  subst hinit; subst hcreate
  constructor
  · intro hdep
    simp only at hdep
    subst hdep
    rcases ea with _ | id <;> rcases bo with _ | _ | c <;>
      simp [runSession, tryBlock, StepOutcome.toExc]
  · intro hdep
    simp only at hdep
    subst hdep
    rcases ea with _ | id <;> rcases bo with _ | _ | c <;>
      simp [runSession, tryBlock, StepOutcome.toExc, hbody]

/-- Witness for C9: both sides at concrete deployment and non-deployment
sessions. -/
theorem run_deployment_cancels_logs_witness :
    (∃ e1 e2 rest,
      (runSession "app" ⟨some "ap-1", some "w", some "n", true⟩
          ⟨.ok, "x", .ok, .ok⟩ []).events =
        e1 :: e2 :: Event.createObjects :: Event.logsLoopCancel ::
          Event.yieldToContext :: rest) ∧
    Event.logsLoopCancel ∉
      (runSession "app" ⟨some "ap-1", some "w", some "n", false⟩
          ⟨.ok, "x", .ok, .ok⟩ []).events :=
  ⟨(run_deployment_cancels_logs "app" ⟨some "ap-1", some "w", some "n", true⟩
      ⟨.ok, "x", .ok, .ok⟩ [] rfl rfl (by decide)).1 rfl,
   (run_deployment_cancels_logs "app" ⟨some "ap-1", some "w", some "n", false⟩
      ⟨.ok, "x", .ok, .ok⟩ [] rfl rfl (by decide)).2 rfl⟩

/-- Claim C10: run, run_forever and deploy all raise InvalidError when
invoked while not running locally, before a client is constructed or any
remote call is issued: their event traces are empty. -/
theorem entry_points_require_local (desc : String) (cp : Bool) (env : RunEnv)
    (stubName nameArg : Option String) (ns : DeploymentNamespace)
    (cp2 : Bool) (resp : AppGetResponse) (io : StepOutcome)
    (newAppId : String) (co dco : StepOutcome) :
    ((run desc false cp env).events = [] ∧
      ∃ m, (run desc false cp env).outcome = .error (.invalidError m)) ∧
    ((run_forever desc false cp env).events = [] ∧
      ∃ m, (run_forever desc false cp env).outcome = .error (.invalidError m)) ∧
    ((deploy stubName nameArg ns false cp2 resp io newAppId co dco).events
        = [] ∧
      ∃ m, (deploy stubName nameArg ns false cp2 resp io newAppId
          co dco).outcome = .error (.invalidError m)) := by
  refine ⟨⟨?_, ?_⟩, ⟨?_, ?_⟩, ⟨?_, ?_⟩⟩ <;> simp [run, run_forever, deploy]

end ModalClient
